import Mathlib

/-!
Shallow embedding of the `tcp::Server` connection multiplexer
(`include/tcp/server.h` of jsilll/tcp-server) and of the worker-pool
hand-off it drives.  OS calls (`epoll_create1`, `socket`, `accept`,
`epoll_ctl`, `read`, `epoll_wait`) and the externally supplied `Handler`
are modelled as oracle inputs: each definition takes the outcome of every
OS call it performs and computes exactly what the C++ code does with that
outcome.  The `ThreadPool`, and `utils.h`'s `Error`, `GetClientAddress`
and `Write`, are not under `src/`; where their behaviour matters it is
modelled from the spec and marked as such.
-/

namespace Tcp

/-- Error kinds of `tcp::Error` (from `utils.h`).  The kinds
`EpollCreation`, `SocketCreation`, `SocketBinding`, `SocketListening`,
`EpollAdd`, `EpollWait` and `Read` appear literally in `server.h`;
`Write` is modelled from the spec: `utils.h` is not under `src/`, and the
spec names a ConnectionError of kind Write for failed writes. -/
inductive ErrorKind
  | EpollCreation
  | SocketCreation
  | SocketBinding
  | SocketListening
  | EpollAdd
  | EpollWait
  | ReadFail
  | WriteFail
deriving DecidableEq, Repr

/-- Error value: a message and a kind, as constructed by
`Error(msg, kind)` throughout `server.h`. -/
structure Error where
  msg : String
  kind : ErrorKind
deriving DecidableEq, Repr

/-- Peer address: abstraction of `sockaddr_in` (only identity matters to
the embedding).  `sockaddr_in client_addr{}` zero-initialises, so the
default value is `zero`. -/
structure SockAddrIn where
  addr : Nat
  port : Nat
deriving DecidableEq, Repr

/-- Zero-initialised `sockaddr_in`, the value of `client_addr{}` before
any successful `GetClientAddress` assignment. -/
def SockAddrIn.zero : SockAddrIn := ⟨0, 0⟩

/-- Resolution of the peer address as the event loop performs it at
`server.h` lines 170-177 and 186-193: `sockaddr_in client_addr{};` then
`try { client_addr = GetClientAddress(fd); } catch (const Error) {}` —
a failure is swallowed and the zero address is kept. -/
def resolvedAddr (r : Except Error SockAddrIn) : SockAddrIn :=
  match r with
  | .ok a => a
  | .error _ => SockAddrIn.zero

/-- Work item pushed to the `ThreadPool` by the event loop.  `NewConn`
and `ReadUpd` are the `HandleConnUpdate` closures of lines 157 and 202
(they capture the handle); `ErrCb` and `CloseCb` are the direct
`handler.OnError` / `handler.OnClose` closures of lines 184 and 199
(they capture only the already-resolved address, not the handle). -/
inductive WorkItem
  | NewConn (fd : Int)
  | ReadUpd (fd : Int) (payload : List Nat)
  | ErrCb (a : SockAddrIn) (e : Error)
  | CloseCb (a : SockAddrIn)
deriving DecidableEq, Repr

/-- OS-visible operations the loop thread performs while classifying one
readiness notification: `accept`, `epoll_ctl(ADD)`, `read`, `close`. -/
inductive LoopAction
  | acceptCall
  | registerCall (fd : Int)
  | readCall (fd : Int)
  | closeFd (fd : Int)
deriving DecidableEq, Repr

/-- Result of classifying one readiness notification: the OS calls made,
in order, and the work items pushed to the pool (zero or one). -/
structure NotifResult where
  actions : List LoopAction
  pushed : List WorkItem
deriving DecidableEq, Repr

/-- Linux `EPOLLIN` bit as used in `server.h`. -/
def EPOLLIN : Nat := 1

/-- Linux `EPOLLHUP` bit as used in `server.h`. -/
def EPOLLHUP : Nat := 16

/-- One readiness notification together with the outcomes of the OS calls
the loop makes while classifying it: the `epoll_event` fields (`mask`,
`fd`), the `accept` result (`-1` on failure), the `epoll_ctl` outcome for
the accepted handle, the `read` return value, the bytes `read` deposited
at the front of the receive buffer, and the `GetClientAddress` outcome. -/
structure NotifInput where
  mask : Nat
  fd : Int
  acceptResult : Int
  ctlOk : Bool
  readN : Int
  readData : List Nat
  addrRes : Except Error SockAddrIn
deriving Repr

/-- Classification of one readiness notification, translated from the
body of the `for` loop in `tcp::Server::Run` (`server.h` lines 130-205):
skip if the mask carries `EPOLLHUP`; on the listening socket accept,
register and push a `New` item (silently dropping on accept or
registration failure, closing the handle in the latter case); on an
established connection read into a fresh zero-filled buffer of
`_buf_size` bytes and classify the result `-1` / `0` / data.  In the
data case the code pushes the moved vector `in_buf` itself — the whole
`_buf_size`-byte buffer, the read bytes followed by the untouched
zeros — without resizing it to the number of bytes read. -/
def processNotif (serverFd : Int) (bufSize : Nat) (inp : NotifInput) : NotifResult :=
  if inp.mask &&& EPOLLHUP ≠ 0 then ⟨[], []⟩
  else if inp.fd = serverFd then
    if inp.acceptResult = -1 then ⟨[LoopAction.acceptCall], []⟩
    else if inp.ctlOk then
      ⟨[LoopAction.acceptCall, LoopAction.registerCall inp.acceptResult],
       [WorkItem.NewConn inp.acceptResult]⟩
    else
      ⟨[LoopAction.acceptCall, LoopAction.registerCall inp.acceptResult,
        LoopAction.closeFd inp.acceptResult], []⟩
  else
    if inp.readN = -1 then
      ⟨[LoopAction.readCall inp.fd, LoopAction.closeFd inp.fd],
       [WorkItem.ErrCb (resolvedAddr inp.addrRes)
          ⟨"Failed to read from a client.", ErrorKind.ReadFail⟩]⟩
    else if inp.readN = 0 then
      ⟨[LoopAction.readCall inp.fd, LoopAction.closeFd inp.fd],
       [WorkItem.CloseCb (resolvedAddr inp.addrRes)]⟩
    else
      ⟨[LoopAction.readCall inp.fd],
       [WorkItem.ReadUpd inp.fd
          (inp.readData.take inp.readN.toNat ++
           List.replicate (bufSize - inp.readN.toNat) 0)]⟩

/-- Outcomes of the OS calls the `Server` constructor makes, in the order
the C++ member-initializer list and constructor body perform them:
`epoll_create1` result, `socket` result (each `-1` on failure),
`setsockopt` outcome, `bind` outcome, plus the `max_events` argument
checked first in the body. -/
structure CtorInput where
  maxEvents : Int
  epollFd : Int
  serverSockFd : Int
  setsockoptOk : Bool
  bindOk : Bool
deriving Repr

/-- Outcome of running the constructor: the thrown error (if any), the
fds handed out by the successful creation calls, and the fds closed
before construction finished. -/
structure CtorResult where
  result : Except Error Unit
  opened : List Int
  closed : List Int
deriving Repr

/-- The `Server` constructor (`server.h` lines 57-90).  The initializer
list runs `epoll_create1` and `socket` first; the body then checks, in
order, `max_events <= 0`, the epoll fd, the socket fd, `setsockopt` and
`bind`, throwing the corresponding `Error`.  A throw from the constructor
body skips `~Server` entirely (C++ runs the destructor only for
fully-constructed objects, and `_epoll_fd` / `_server_fd` are raw `int`
members with no destructor of their own), so no fd is closed on any
path of construction itself. -/
def construct (i : CtorInput) : CtorResult :=
  let opened :=
    (if i.epollFd = -1 then [] else [i.epollFd]) ++
    (if i.serverSockFd = -1 then [] else [i.serverSockFd])
  if i.maxEvents ≤ 0 then
    ⟨.error ⟨"Invalid max events.", ErrorKind.EpollCreation⟩, opened, []⟩
  else if i.epollFd = -1 then
    ⟨.error ⟨"Failed to create epoll instance.", ErrorKind.EpollCreation⟩, opened, []⟩
  else if i.serverSockFd = -1 then
    ⟨.error ⟨"Failed to create server socket.", ErrorKind.SocketCreation⟩, opened, []⟩
  else if ¬ i.setsockoptOk then
    ⟨.error ⟨"Failed to set socket options.", ErrorKind.SocketCreation⟩, opened, []⟩
  else if ¬ i.bindOk then
    ⟨.error ⟨"Failed to bind server socket.", ErrorKind.SocketBinding⟩, opened, []⟩
  else ⟨.ok (), opened, []⟩

/-- Kind of connection update, as the private `UpdateKind` enum of
`tcp::Server` (values `New` and `Read`). -/
inductive UpdateKind
  | NewUpd
  | ReadUpd
deriving DecidableEq, Repr

/-- The Error thrown by `utils.h`'s `Write` on failure.  Modelled from
the spec: `utils.h` is not under `src/`; the spec states that a failed
write yields a ConnectionError of kind Write. -/
def writeError : Error := ⟨"Failed to write to a client.", ErrorKind.WriteFail⟩

/-- Environment of one `HandleConnUpdate` execution: the outcome of
`GetClientAddress(client_fd)`, the application handler's methods as
state transformers over an abstract handler state `σ` (each returns the
updated state and, for `OnNew` / `OnRead`, the produced `out_buf` and
`keep_alive`), and the success of `Write(client_fd, out_buf)`.
`onNew` / `onRead` / `onError` / `onClose` model the external `Handler`
contract; `getAddr` and `writeOk` are the OS-call outcomes. -/
structure ConnEnv (σ : Type) where
  getAddr : Except Error SockAddrIn
  onNew : σ → SockAddrIn → σ × List Nat × Bool
  onRead : σ → SockAddrIn → List Nat → σ × List Nat × Bool
  onError : σ → SockAddrIn → Error → σ
  onClose : σ → SockAddrIn → σ
  writeOk : List Nat → Bool

/-- Observable operations performed during a worker-side execution:
handle close, the `Write` call, and each handler-method invocation with
its arguments. -/
inductive CAction
  | closeFd (fd : Int)
  | writeCall (fd : Int) (bytes : List Nat)
  | onNewCall (a : SockAddrIn)
  | onReadCall (a : SockAddrIn) (bytes : List Nat)
  | onErrorCall (a : SockAddrIn) (e : Error)
  | onCloseCall (a : SockAddrIn)
deriving DecidableEq, Repr

/-- The `constexpr if` dispatch of `HandleConnUpdate` (`server.h` lines
235-239): invoke `OnNew` or `OnRead` on the handler copy according to
the update kind, yielding the new copy state, `out_buf` and
`keep_alive`. -/
def invokeHandler {σ : Type} (env : ConnEnv σ) (uk : UpdateKind) (h : σ)
    (addr : SockAddrIn) (inBuf : List Nat) : σ × List Nat × Bool :=
  match uk with
  | UpdateKind.NewUpd => env.onNew h addr
  | UpdateKind.ReadUpd => env.onRead h addr inBuf

/-- The handler-method invocation recorded for an update kind. -/
def callAction (uk : UpdateKind) (addr : SockAddrIn) (inBuf : List Nat) : CAction :=
  match uk with
  | UpdateKind.NewUpd => CAction.onNewCall addr
  | UpdateKind.ReadUpd => CAction.onReadCall addr inBuf

/-- Worker-side `HandleConnUpdate` (`server.h` lines 217-258), which
receives the `Handler` BY VALUE (`Handler handler` parameter): `h` is the
state of that per-call copy.  Control flow translated from the source:
resolve the address (`client_addr{}` zero-init; on throw, close and call
`OnError` with the still-zero address and the caught error, and return);
invoke `OnNew` or `OnRead` according to the `constexpr` update kind;
`Write` the produced `out_buf` (on throw, close and call `OnError` with
the write error, and return); finally close the handle iff `keep_alive`
is false.  Returns the action trace and the final state of the handler
copy. -/
def handleConnUpdate {σ : Type} (env : ConnEnv σ) (uk : UpdateKind) (h : σ)
    (fd : Int) (inBuf : List Nat) : List CAction × σ :=
  match env.getAddr with
  | .error e =>
      ([CAction.closeFd fd, CAction.onErrorCall SockAddrIn.zero e],
       env.onError h SockAddrIn.zero e)
  | .ok addr =>
      let r := invokeHandler env uk h addr inBuf
      let callAct := callAction uk addr inBuf
      if env.writeOk r.2.1 then
        if r.2.2 then
          ([callAct, CAction.writeCall fd r.2.1], r.1)
        else
          ([callAct, CAction.writeCall fd r.2.1, CAction.closeFd fd], r.1)
      else
        ([callAct, CAction.writeCall fd r.2.1, CAction.closeFd fd,
          CAction.onErrorCall addr writeError],
         env.onError r.1 addr writeError)

/-- Execution of one queued work item by a worker, with `h` the state of
the ORIGINAL handler object passed to `Run` (the lambdas of `server.h`
capture `&handler` by reference).  The `ErrCb` / `CloseCb` closures of
lines 184 and 199 call `handler.OnError` / `handler.OnClose` directly on
that reference, so they update `h`; the `NewConn` / `ReadUpd` closures of
lines 157 and 202 call `HandleConnUpdate(handler, ...)`, whose
`Handler handler` parameter copies the handler, so the original state is
returned unchanged and the copy's final state is discarded.  Returns the
original handler's state after the item and the action trace. -/
def execItem {σ : Type} (env : ConnEnv σ) (h : σ) (it : WorkItem) :
    σ × List CAction :=
  match it with
  | WorkItem.NewConn fd =>
      (h, (handleConnUpdate env UpdateKind.NewUpd h fd []).1)
  | WorkItem.ReadUpd fd buf =>
      (h, (handleConnUpdate env UpdateKind.ReadUpd h fd buf).1)
  | WorkItem.ErrCb a e => (env.onError h a e, [CAction.onErrorCall a e])
  | WorkItem.CloseCb a => (env.onClose h a, [CAction.onCloseCall a])

/-- One pass of the event loop: the `epoll_wait` return value and, when
it is not `-1`, the reported notifications (with their per-notification
OS-call outcomes). -/
structure IterInput where
  waitResult : Int
  notifs : List NotifInput
deriving Repr

/-- The event loop of `Run` (`server.h` lines 120-206), with the
infinite `while (true)` unrolled along the finite list `iters` of
`epoll_wait` outcomes: an empty list means the loop is still running
(`.ok acc` is reachable only by exhausting `iters`, never by a `return`
or `break` — the loop body contains none).  Each iteration throws
`EpollWait` if the wait failed, otherwise classifies every reported
notification with `processNotif` (which is total: every per-connection
failure is converted into actions and queued callbacks, never a throw)
and accumulates the pushed work items. -/
def runLoop (serverFd : Int) (bufSize : Nat) :
    List IterInput → List WorkItem → Except Error (List WorkItem)
  | [], acc => .ok acc
  | it :: rest, acc =>
      if it.waitResult = -1 then
        .error ⟨"Failed to wait for events.", ErrorKind.EpollWait⟩
      else
        runLoop serverFd bufSize rest
          (acc ++ (it.notifs.map fun n => (processNotif serverFd bufSize n).pushed).flatten)

/-- `tcp::Server::Run` (`server.h` lines 104-207): `listen` (throwing
`SocketListening` on failure), `epoll_ctl(ADD)` of the listening socket
(throwing `EpollAdd` on failure), then the event loop.  `listenOk` and
`addServerOk` are the outcomes of the two setup calls.  The result is
`.error e` when `Run` throws, and `.ok items` when the loop is still
running after consuming `iters`, carrying every work item pushed so
far. -/
def run (serverFd : Int) (bufSize : Nat) (listenOk addServerOk : Bool)
    (iters : List IterInput) : Except Error (List WorkItem) :=
  if ¬ listenOk then
    .error ⟨"Failed to listen on server socket.", ErrorKind.SocketListening⟩
  else if ¬ addServerOk then
    .error ⟨"Failed to add server socket to epoll instance.", ErrorKind.EpollAdd⟩
  else runLoop serverFd bufSize iters []

/-- Combined state of the event-loop thread and the worker pool, for the
interleaved execution of `Run` with `W` workers.  `pending` is the
sequence of readiness notifications epoll will report (level-triggered:
a connection with unconsumed or new data is reported again on the next
wait, so the same `fd` may appear repeatedly); `queue` is the pool's
FIFO task queue (modelled from the spec: `thread_pool.h` is not under
`src/`; the spec describes a shared FIFO queue whose items are removed
one at a time by workers); `workers w` is the item worker `w` is
currently executing, if any. -/
structure SysState (W : Nat) where
  pending : List NotifInput
  queue : List WorkItem
  workers : Fin W → Option WorkItem

/-- Interleaving semantics of the loop thread and the workers.  `loop`:
the loop thread classifies the next notification in one step (it is
single-threaded, so a notification is always fully classified — and its
work item enqueued — before the next one is examined); `take`: an idle
worker removes the front item of the queue; `finish`: a worker completes
its current item.  Queue discipline modelled from the spec (`Submit`
appends, workers remove exactly one). -/
inductive SysStep (serverFd : Int) (bufSize : Nat) {W : Nat} :
    SysState W → SysState W → Prop
  | loop (inp : NotifInput) (rest : List NotifInput) (s : SysState W)
      (hp : s.pending = inp :: rest) :
      SysStep serverFd bufSize s
        { s with pending := rest,
                 queue := s.queue ++ (processNotif serverFd bufSize inp).pushed }
  | take (w : Fin W) (it : WorkItem) (rest : List WorkItem) (s : SysState W)
      (hw : s.workers w = none) (hq : s.queue = it :: rest) :
      SysStep serverFd bufSize s
        { s with queue := rest,
                 workers := Function.update s.workers w (some it) }
  | finish (w : Fin W) (it : WorkItem) (s : SysState W)
      (hw : s.workers w = some it) :
      SysStep serverFd bufSize s
        { s with workers := Function.update s.workers w none }

/-- Does a work item reference the connection handle `fd`?  Only the
`HandleConnUpdate` closures capture `client_fd`; the `OnError` /
`OnClose` closures capture only the resolved address. -/
def refsFd (it : WorkItem) (fd : Int) : Bool :=
  match it with
  | WorkItem.NewConn f => f = fd
  | WorkItem.ReadUpd f _ => f = fd
  | WorkItem.ErrCb _ _ => false
  | WorkItem.CloseCb _ => false

/-- All work items in flight: queued in the pool or currently being
executed by some worker. -/
def inFlight {W : Nat} (s : SysState W) : List WorkItem :=
  s.queue ++ (List.ofFn s.workers).filterMap id

/-- Number of in-flight work items referencing handle `fd`. -/
def inFlightCount {W : Nat} (s : SysState W) (fd : Int) : Nat :=
  (inFlight s).countP (fun it => refsFd it fd)

/-- A readiness notification for connection handle 5 whose read yields
the two bytes `[1, 2]` (client's first write). -/
def c2inpA : NotifInput := ⟨EPOLLIN, 5, -1, false, 2, [1, 2], .ok SockAddrIn.zero⟩

/-- A second readiness notification for the same handle 5 whose read
yields the byte `[9]` (client's second write, reported by the
level-triggered wait while the first item is still in flight). -/
def c2inpB : NotifInput := ⟨EPOLLIN, 5, -1, false, 1, [9], .ok SockAddrIn.zero⟩

/-- Initial system state: two workers idle, empty queue, and the two
notifications for handle 5 waiting to be reported. -/
def c2s0 : SysState 2 := ⟨[c2inpA, c2inpB], [], fun _ => none⟩

/-- After the loop thread classifies the first notification. -/
def c2s1 : SysState 2 :=
  { c2s0 with pending := [c2inpB],
              queue := c2s0.queue ++ (processNotif 0 4 c2inpA).pushed }

/-- After the loop thread classifies the second notification: the queue
now holds two work items, both referencing handle 5. -/
def c2s2 : SysState 2 :=
  { c2s1 with pending := [],
              queue := c2s1.queue ++ (processNotif 0 4 c2inpB).pushed }

/-- After worker 0 takes the first item for handle 5. -/
def c2s3 : SysState 2 :=
  { c2s2 with queue := [WorkItem.ReadUpd 5 [9, 0, 0, 0]],
              workers := Function.update c2s2.workers 0
                (some (WorkItem.ReadUpd 5 [1, 2, 0, 0])) }

/-- After worker 1 takes the second item for handle 5: both workers now
hold a work item referencing the same handle. -/
def c2s4 : SysState 2 :=
  { c2s3 with queue := [],
              workers := Function.update c2s3.workers 1
                (some (WorkItem.ReadUpd 5 [9, 0, 0, 0])) }

/-- A concrete handler environment over state `Nat`, used to instantiate
the worker-side theorems: address resolution succeeds with ⟨1, 1⟩,
`OnNew` bumps the state and answers `[2]` with keep-alive, `OnRead`
echoes its input without keep-alive, and writes succeed. -/
def c3env : ConnEnv Nat where
  getAddr := .ok ⟨1, 1⟩
  onNew := fun s _ => (s + 1, [2], true)
  onRead := fun s _ b => (s + 2, b, false)
  onError := fun s _ _ => s + 10
  onClose := fun s _ => s
  writeOk := fun _ => true

/-- C1: with receive-buffer size 8, a readiness notification on an
established connection (fd 7) whose single read returns N = 3 bytes
`[9, 9, 9]` is enqueued as a Read work item whose payload is the whole
8-byte buffer `[9, 9, 9, 0, 0, 0, 0, 0]` — length 8, not 3, because
`Run` moves the un-resized `in_buf` vector into the closure.  This
evaluates the code at the claim's failing input: the claim states the
item carries exactly the N = 3 bytes read. -/
theorem readItem_carries_full_buffer :
    (processNotif 0 8 ⟨EPOLLIN, 7, -1, false, 3, [9, 9, 9], .ok SockAddrIn.zero⟩).pushed
      = [WorkItem.ReadUpd 7 [9, 9, 9, 0, 0, 0, 0, 0]] ∧
    ([9, 9, 9, 0, 0, 0, 0, 0] : List Nat).length = 8 ∧ (8 : Nat) ≠ 3 := by
  decide

/-- C8 counterexample: a notification on an established connection whose
mask is `EPOLLIN ||| EPOLLHUP` (17) carries readable data (the read
would return 3 bytes), yet the loop performs no accept, read, close or
enqueue for it — contradicting the claim that only hang-up-ONLY
notifications are ignored and that notifications also carrying readable
data are still processed. -/
theorem hup_with_data_ignored :
    processNotif 0 8 ⟨EPOLLIN + EPOLLHUP, 5, -1, false, 3, [1, 2, 3], .ok SockAddrIn.zero⟩
      = ⟨[], []⟩ ∧
    (EPOLLIN + EPOLLHUP) &&& EPOLLIN ≠ 0 := by
  decide

/-- C8 amended: the loop ignores exactly the notifications whose event
mask has the hang-up bit set — whether or not they also signal readable
data — and processes (performs an accept or a read for) every
notification without that bit. -/
theorem hup_bit_skips_notification (serverFd : Int) (bufSize : Nat) (inp : NotifInput) :
    (inp.mask &&& EPOLLHUP ≠ 0 → processNotif serverFd bufSize inp = ⟨[], []⟩) ∧
    (inp.mask &&& EPOLLHUP = 0 → (processNotif serverFd bufSize inp).actions ≠ []) := by
  constructor
  · intro hhup
    simp [processNotif, hhup]
  · intro hhup
    by_cases hfd : inp.fd = serverFd
    · by_cases hacc : inp.acceptResult = -1
      · simp [processNotif, hhup, hfd, hacc]
      · by_cases hctl : inp.ctlOk <;> simp [processNotif, hhup, hfd, hacc, hctl]
    · by_cases h1 : inp.readN = -1
      · simp [processNotif, hhup, hfd, h1]
      · by_cases h0 : inp.readN = 0 <;> simp [processNotif, hhup, hfd, h1, h0]

/-- C8 amended witness: at the concrete hang-up-and-readable
notification, the amended theorem yields that the notification is
dropped. -/
theorem hup_bit_skips_notification_witness :
    processNotif 0 8 ⟨EPOLLIN + EPOLLHUP, 5, -1, false, 3, [1, 2, 3], .ok SockAddrIn.zero⟩
      = ⟨[], []⟩ :=
  (hup_bit_skips_notification 0 8
    ⟨EPOLLIN + EPOLLHUP, 5, -1, false, 3, [1, 2, 3], .ok SockAddrIn.zero⟩).1 (by decide)

/-- C5 counterexample: a construction run in which `epoll_create1`
returned fd 3 and `socket` returned fd 4 but `bind` failed throws the
`SocketBinding` error while closing nothing: fd 3 (and fd 4), created by
steps that already succeeded, are leaked rather than released,
contradicting the no-leak half of the claim. -/
theorem ctor_bind_failure_leaks_fds :
    (construct ⟨16, 3, 4, true, false⟩).result
      = .error ⟨"Failed to bind server socket.", ErrorKind.SocketBinding⟩ ∧
    (construct ⟨16, 3, 4, true, false⟩).opened = [3, 4] ∧
    (construct ⟨16, 3, 4, true, false⟩).closed = [] ∧
    3 ∈ (construct ⟨16, 3, 4, true, false⟩).opened ∧
    3 ∉ (construct ⟨16, 3, 4, true, false⟩).closed := by
  refine ⟨rfl, rfl, rfl, ?_, ?_⟩ <;> decide

/-- C5 amended: if any step of `Server` construction fails, construction
throws an `Error` whose kind is `EpollCreation`, `SocketCreation` or
`SocketBinding`; but the constructor closes no file descriptor on any
path, so OS resources created by the steps that already succeeded are
not released by the failing construction (they are reclaimed only at
process teardown, since `~Server` runs only for fully-constructed
objects). -/
theorem ctor_error_kinds_and_no_close (i : CtorInput) :
    (∀ e, (construct i).result = .error e →
      e.kind = ErrorKind.EpollCreation ∨ e.kind = ErrorKind.SocketCreation ∨
        e.kind = ErrorKind.SocketBinding) ∧
    (construct i).closed = [] := by
  constructor
  · intro e he
    simp only [construct] at he
    split at he <;> (try split at he) <;> (try split at he) <;> (try split at he) <;>
      (try split at he)
    all_goals (try simp only [Except.error.injEq] at he)
    all_goals (try subst he)
    all_goals simp_all
  · simp only [construct]
    split <;> (try split) <;> (try split) <;> (try split) <;> (try split) <;> rfl

/-- C2 counterexample: starting from an idle two-worker system with two
pending readiness notifications for the same established connection
(handle 5) — the level-triggered wait reports a still-readable handle
again — the interleaved semantics reaches a state in which BOTH workers
hold a work item referencing handle 5 and two such items were in flight
at once, contradicting the claimed at-most-one-in-flight-per-handle
invariant. -/
theorem two_items_same_handle_reachable :
    Relation.ReflTransGen (SysStep 0 4) c2s0 c2s4 ∧
    c2s4.workers 0 = some (WorkItem.ReadUpd 5 [1, 2, 0, 0]) ∧
    c2s4.workers 1 = some (WorkItem.ReadUpd 5 [9, 0, 0, 0]) ∧
    refsFd (WorkItem.ReadUpd 5 [1, 2, 0, 0]) 5 = true ∧
    refsFd (WorkItem.ReadUpd 5 [9, 0, 0, 0]) 5 = true ∧
    inFlightCount c2s4 5 = 2 := by
  refine ⟨?_, by decide, by decide, by decide, by decide, by decide⟩
  have h01 : SysStep 0 4 c2s0 c2s1 := SysStep.loop c2inpA [c2inpB] c2s0 rfl
  have h12 : SysStep 0 4 c2s1 c2s2 := SysStep.loop c2inpB [] c2s1 rfl
  have h23 : SysStep 0 4 c2s2 c2s3 :=
    SysStep.take 0 (WorkItem.ReadUpd 5 [1, 2, 0, 0]) [WorkItem.ReadUpd 5 [9, 0, 0, 0]]
      c2s2 (by decide) (by decide)
  have h34 : SysStep 0 4 c2s3 c2s4 :=
    SysStep.take 1 (WorkItem.ReadUpd 5 [9, 0, 0, 0]) [] c2s3 (by decide) (by decide)
  exact .head h01 (.head h12 (.head h23 (.head h34 .refl)))

/-- C2 amended: the loop thread classifies each readiness notification
completely before examining the next and enqueues at most one work item
per notification; but (as the counterexample shows) several work items
referencing the same handle can be in flight simultaneously when the
handle is reported ready again before a prior item has finished. -/
theorem at_most_one_item_per_notification (serverFd : Int) (bufSize : Nat)
    (inp : NotifInput) :
    (processNotif serverFd bufSize inp).pushed.length ≤ 1 := by
  by_cases hhup : inp.mask &&& EPOLLHUP ≠ 0
  · simp [processNotif, hhup]
  · by_cases hfd : inp.fd = serverFd
    · by_cases hacc : inp.acceptResult = -1
      · simp [processNotif, hhup, hfd, hacc]
      · by_cases hctl : inp.ctlOk <;> simp [processNotif, hhup, hfd, hacc, hctl]
    · by_cases h1 : inp.readN = -1
      · simp [processNotif, hhup, hfd, h1]
      · by_cases h0 : inp.readN = 0 <;> simp [processNotif, hhup, hfd, h1, h0]

/-- C4: on an established connection (no hang-up bit, fd is not the
listening socket) with a read result in the OS range `n ≥ -1`: a
negative result closes the handle and enqueues exactly one `OnError`
callback carrying the `Read`-kind connection error; a zero result closes
the handle and enqueues exactly one `OnClose` callback; and in both
cases a failed peer-address resolution is swallowed, the zero (default)
address being used instead of failing the iteration. -/
theorem conn_read_error_eof_classification (serverFd : Int) (bufSize : Nat)
    (inp : NotifInput) (hhup : inp.mask &&& EPOLLHUP = 0)
    (hfd : inp.fd ≠ serverFd) (hn : -1 ≤ inp.readN) :
    (inp.readN < 0 →
      processNotif serverFd bufSize inp =
        ⟨[LoopAction.readCall inp.fd, LoopAction.closeFd inp.fd],
         [WorkItem.ErrCb (resolvedAddr inp.addrRes)
            ⟨"Failed to read from a client.", ErrorKind.ReadFail⟩]⟩) ∧
    (inp.readN = 0 →
      processNotif serverFd bufSize inp =
        ⟨[LoopAction.readCall inp.fd, LoopAction.closeFd inp.fd],
         [WorkItem.CloseCb (resolvedAddr inp.addrRes)]⟩) ∧
    (∀ e, inp.addrRes = .error e → resolvedAddr inp.addrRes = SockAddrIn.zero) := by
  refine ⟨?_, ?_, ?_⟩
  · intro hneg
    have h1 : inp.readN = -1 := by omega
    simp [processNotif, hhup, hfd, h1]
  · intro h0
    simp [processNotif, hhup, hfd, h0]
  · intro e he
    simp [resolvedAddr, he]

/-- C4 witness: a concrete failing read (`n = -1`) on connection 9 whose
address resolution also fails is classified as close-plus-`OnError` with
the zero address. -/
theorem conn_read_error_eof_classification_witness :
    processNotif 0 4 ⟨1, 9, -1, false, -1, [],
        .error ⟨"Failed to get client address.", ErrorKind.ReadFail⟩⟩ =
      ⟨[LoopAction.readCall 9, LoopAction.closeFd 9],
       [WorkItem.ErrCb SockAddrIn.zero
          ⟨"Failed to read from a client.", ErrorKind.ReadFail⟩]⟩ := by
  have h := conn_read_error_eof_classification 0 4
    ⟨1, 9, -1, false, -1, [], .error ⟨"Failed to get client address.", ErrorKind.ReadFail⟩⟩
    (by decide) (by decide) (by decide)
  have hz := h.2.2 ⟨"Failed to get client address.", ErrorKind.ReadFail⟩ rfl
  rw [h.1 (by decide), hz]

/-- C6: on a readiness event for the listening socket (no hang-up bit):
an accept failure drops the event with no further OS action and nothing
enqueued; a post-accept registration failure closes the new handle and
enqueues nothing; on success exactly one `New` work item is enqueued;
and nothing is enqueued exactly when one of those two failures
occurred. -/
theorem listen_event_outcomes (serverFd : Int) (bufSize : Nat) (inp : NotifInput)
    (hhup : inp.mask &&& EPOLLHUP = 0) (hfd : inp.fd = serverFd) :
    (inp.acceptResult = -1 →
      processNotif serverFd bufSize inp = ⟨[LoopAction.acceptCall], []⟩) ∧
    (inp.acceptResult ≠ -1 → inp.ctlOk = false →
      processNotif serverFd bufSize inp =
        ⟨[LoopAction.acceptCall, LoopAction.registerCall inp.acceptResult,
          LoopAction.closeFd inp.acceptResult], []⟩) ∧
    (inp.acceptResult ≠ -1 → inp.ctlOk = true →
      processNotif serverFd bufSize inp =
        ⟨[LoopAction.acceptCall, LoopAction.registerCall inp.acceptResult],
         [WorkItem.NewConn inp.acceptResult]⟩) ∧
    ((processNotif serverFd bufSize inp).pushed = [] ↔
      inp.acceptResult = -1 ∨ inp.ctlOk = false) := by
  refine ⟨?_, ?_, ?_, ?_⟩
  · intro hacc
    simp [processNotif, hhup, hfd, hacc]
  · intro hacc hctl
    simp [processNotif, hhup, hfd, hacc, hctl]
  · intro hacc hctl
    simp [processNotif, hhup, hfd, hacc, hctl]
  · by_cases hacc : inp.acceptResult = -1
    · simp [processNotif, hhup, hfd, hacc]
    · by_cases hctl : inp.ctlOk <;> simp [processNotif, hhup, hfd, hacc, hctl]

/-- C6 witness: a successful accept of handle 8 followed by a successful
registration enqueues exactly one `New` work item for handle 8. -/
theorem listen_event_outcomes_witness :
    processNotif 0 4 ⟨1, 0, 8, true, 0, [], .ok SockAddrIn.zero⟩ =
      ⟨[LoopAction.acceptCall, LoopAction.registerCall 8], [WorkItem.NewConn 8]⟩ :=
  (listen_event_outcomes 0 4 ⟨1, 0, 8, true, 0, [], .ok SockAddrIn.zero⟩
    (by decide) rfl).2.2.1 (by decide) rfl

/-- C5 amended witness: at the concrete failing-bind construction, the
amended theorem gives the `SocketBinding` kind and the absence of any
close. -/
theorem ctor_error_kinds_and_no_close_witness :
    (ErrorKind.SocketBinding = ErrorKind.EpollCreation ∨
      ErrorKind.SocketBinding = ErrorKind.SocketCreation ∨
      ErrorKind.SocketBinding = ErrorKind.SocketBinding) ∧
    (construct ⟨16, 3, 4, true, false⟩).closed = [] :=
  ⟨(ctor_error_kinds_and_no_close ⟨16, 3, 4, true, false⟩).1
      ⟨"Failed to bind server socket.", ErrorKind.SocketBinding⟩ rfl,
   (ctor_error_kinds_and_no_close ⟨16, 3, 4, true, false⟩).2⟩

/-- C3: worker-side execution of a `New` or `Read` item: a failed
peer-address resolution closes the handle and calls `OnError` (with the
zero address and the caught error) and nothing else; otherwise the
handler method matching the update kind is invoked and its output
written; a failed write closes the handle and calls `OnError` with the
`Write`-kind connection error, stopping there; a successful write
closes the handle exactly when `keep_alive` is false, and with
`keep_alive` true no close of the handle occurs in the item. -/
theorem handleConnUpdate_flow {σ : Type} (env : ConnEnv σ) (uk : UpdateKind)
    (h : σ) (fd : Int) (inBuf : List Nat) :
    (∀ e, env.getAddr = .error e →
      handleConnUpdate env uk h fd inBuf =
        ([CAction.closeFd fd, CAction.onErrorCall SockAddrIn.zero e],
         env.onError h SockAddrIn.zero e)) ∧
    (∀ addr, env.getAddr = .ok addr →
      (env.writeOk (invokeHandler env uk h addr inBuf).2.1 = false →
        handleConnUpdate env uk h fd inBuf =
          ([callAction uk addr inBuf,
            CAction.writeCall fd (invokeHandler env uk h addr inBuf).2.1,
            CAction.closeFd fd, CAction.onErrorCall addr writeError],
           env.onError (invokeHandler env uk h addr inBuf).1 addr writeError) ∧
        writeError.kind = ErrorKind.WriteFail) ∧
      (env.writeOk (invokeHandler env uk h addr inBuf).2.1 = true →
        ((invokeHandler env uk h addr inBuf).2.2 = false →
          handleConnUpdate env uk h fd inBuf =
            ([callAction uk addr inBuf,
              CAction.writeCall fd (invokeHandler env uk h addr inBuf).2.1,
              CAction.closeFd fd],
             (invokeHandler env uk h addr inBuf).1)) ∧
        ((invokeHandler env uk h addr inBuf).2.2 = true →
          handleConnUpdate env uk h fd inBuf =
            ([callAction uk addr inBuf,
              CAction.writeCall fd (invokeHandler env uk h addr inBuf).2.1],
             (invokeHandler env uk h addr inBuf).1) ∧
          CAction.closeFd fd ∉ (handleConnUpdate env uk h fd inBuf).1))) := by
  refine ⟨?_, ?_⟩
  · intro e he
    simp [handleConnUpdate, he]
  · intro addr ha
    refine ⟨?_, ?_⟩
    · intro hw
      exact ⟨by simp [handleConnUpdate, ha, hw], rfl⟩
    · intro hw
      refine ⟨?_, ?_⟩
      · intro hka
        simp [handleConnUpdate, ha, hw, hka]
      · intro hka
        refine ⟨by simp [handleConnUpdate, ha, hw, hka], ?_⟩
        simp only [handleConnUpdate, ha, hw, hka]
        cases uk <;> simp [callAction]

/-- C3 witness: in the concrete environment, executing a `New` item on
handle 7 invokes `OnNew`, writes its `[2]` response, and — keep-alive
being true — performs no close. -/
theorem handleConnUpdate_flow_witness :
    handleConnUpdate c3env UpdateKind.NewUpd 0 7 [] =
      ([CAction.onNewCall ⟨1, 1⟩, CAction.writeCall 7 [2]], 1) ∧
    CAction.closeFd 7 ∉ (handleConnUpdate c3env UpdateKind.NewUpd 0 7 []).1 :=
  ((((handleConnUpdate_flow c3env UpdateKind.NewUpd 0 7 []).2 ⟨1, 1⟩ rfl).2 rfl).2 rfl)

/-- Any error produced by the event loop proper is the `EpollWait`
failure of the wait call (translated from the loop body: every
per-notification failure is converted into actions or queued callbacks,
never a throw). -/
theorem runLoop_error_kind (serverFd : Int) (bufSize : Nat) :
    ∀ (iters : List IterInput) (acc : List WorkItem) (e : Error),
      runLoop serverFd bufSize iters acc = .error e →
      e = ⟨"Failed to wait for events.", ErrorKind.EpollWait⟩ := by
  intro iters
  induction iters with
  | nil =>
    intro acc e he
    simp [runLoop] at he
  | cons it rest ih =>
    intro acc e he
    by_cases hw : it.waitResult = -1
    · simp [runLoop, hw] at he
      exact he.symm
    · simp only [runLoop, if_neg hw] at he
      exact ih _ e he

/-- A still-running loop (normal value of the fuelled unrolling) means
every wait so far succeeded. -/
theorem runLoop_ok_all_waits (serverFd : Int) (bufSize : Nat) :
    ∀ (iters : List IterInput) (acc ws : List WorkItem),
      runLoop serverFd bufSize iters acc = .ok ws →
      ∀ j ∈ iters, j.waitResult ≠ -1 := by
  intro iters
  induction iters with
  | nil =>
    intro acc ws _ j hj
    simp at hj
  | cons it rest ih =>
    intro acc ws hok j hj
    by_cases hw : it.waitResult = -1
    · simp [runLoop, hw] at hok
    · simp only [runLoop, if_neg hw] at hok
      rcases List.mem_cons.mp hj with hj | hj
      · rw [hj]; exact hw
      · exact ih _ ws hok j hj

/-- A failed wait anywhere in the unrolling makes the loop throw the
`EpollWait` error. -/
theorem runLoop_wait_fail (serverFd : Int) (bufSize : Nat) :
    ∀ (iters : List IterInput) (acc : List WorkItem) (it : IterInput),
      it ∈ iters → it.waitResult = -1 →
      runLoop serverFd bufSize iters acc =
        .error ⟨"Failed to wait for events.", ErrorKind.EpollWait⟩ := by
  intro iters
  induction iters with
  | nil =>
    intro acc it hmem
    simp at hmem
  | cons j rest ih =>
    intro acc it hmem hww
    by_cases hw : j.waitResult = -1
    · simp [runLoop, hw]
    · simp only [runLoop, if_neg hw]
      rcases List.mem_cons.mp hmem with hj | hj
      · exact absurd (hj ▸ hww) hw
      · exact ih _ it hj hww

/-- C7: `Run` never produces a normal return: every error it can throw
is one of the setup kinds `SocketListening`, `EpollAdd`, `EpollWait`;
a normal value of the fuelled unrolling arises only from exhausting the
iteration fuel with both setup calls and every wait successful (the
loop body contains no `return` or `break`); and if any wait call errors,
`Run` throws the `EpollWait` error, which propagates (no retry). -/
theorem run_throws_only_setup_errors (serverFd : Int) (bufSize : Nat)
    (listenOk addServerOk : Bool) (iters : List IterInput) :
    (∀ e, run serverFd bufSize listenOk addServerOk iters = .error e →
      e.kind = ErrorKind.SocketListening ∨ e.kind = ErrorKind.EpollAdd ∨
        e.kind = ErrorKind.EpollWait) ∧
    (∀ ws, run serverFd bufSize listenOk addServerOk iters = .ok ws →
      listenOk = true ∧ addServerOk = true ∧ ∀ j ∈ iters, j.waitResult ≠ -1) ∧
    (listenOk = true → addServerOk = true →
      ∀ it ∈ iters, it.waitResult = -1 →
        run serverFd bufSize listenOk addServerOk iters =
          .error ⟨"Failed to wait for events.", ErrorKind.EpollWait⟩) := by
  refine ⟨?_, ?_, ?_⟩
  · intro e he
    cases listenOk with
    | false =>
      simp [run] at he
      exact Or.inl (by rw [← he])
    | true =>
      cases addServerOk with
      | false =>
        simp [run] at he
        exact Or.inr (Or.inl (by rw [← he]))
      | true =>
        simp [run] at he
        rw [runLoop_error_kind serverFd bufSize iters [] e he]
        exact Or.inr (Or.inr rfl)
  · intro ws hok
    cases listenOk with
    | false => simp [run] at hok
    | true =>
      cases addServerOk with
      | false => simp [run] at hok
      | true =>
        simp [run] at hok
        exact ⟨rfl, rfl, runLoop_ok_all_waits serverFd bufSize iters [] ws hok⟩
  · intro hl ha it hmem hww
    subst hl
    subst ha
    simpa [run] using runLoop_wait_fail serverFd bufSize iters [] it hmem hww

/-- C7 witness: with both setup calls succeeding and the first wait call
failing, `Run` throws the `EpollWait` error. -/
theorem run_throws_only_setup_errors_witness :
    run 0 4 true true [⟨-1, []⟩] =
      .error ⟨"Failed to wait for events.", ErrorKind.EpollWait⟩ :=
  (run_throws_only_setup_errors 0 4 true true [⟨-1, []⟩]).2.2 rfl rfl ⟨-1, []⟩
    (List.mem_singleton.mpr rfl) rfl

/-- C9: executing a `New` or `Read` work item leaves the ORIGINAL
handler object unchanged — `HandleConnUpdate` receives the handler by
value, so the copy's mutations are discarded — while the action trace is
exactly that of `HandleConnUpdate` run on the copy. -/
theorem workitem_exec_preserves_original_handler {σ : Type} (env : ConnEnv σ)
    (h : σ) (fd : Int) (buf : List Nat) :
    (execItem env h (WorkItem.NewConn fd)).1 = h ∧
    (execItem env h (WorkItem.ReadUpd fd buf)).1 = h ∧
    (execItem env h (WorkItem.NewConn fd)).2 =
      (handleConnUpdate env UpdateKind.NewUpd h fd []).1 ∧
    (execItem env h (WorkItem.ReadUpd fd buf)).2 =
      (handleConnUpdate env UpdateKind.ReadUpd h fd buf).1 :=
  ⟨rfl, rfl, rfl, rfl⟩

/-- C10: with receive-buffer size 0, a successful read on an established
connection can only return 0 (a `read` of count 0 returns 0), so the
notification is classified as an orderly peer shutdown: the handle is
closed and exactly one `OnClose` callback is enqueued — no `OnRead` is
ever delivered. -/
theorem zero_bufsize_read_classified_as_close (serverFd : Int) (inp : NotifInput)
    (bufSize : Nat) (hb : bufSize = 0) (hhup : inp.mask &&& EPOLLHUP = 0)
    (hfd : inp.fd ≠ serverFd) (hlo : 0 ≤ inp.readN)
    (hhi : inp.readN ≤ (bufSize : Int)) :
    inp.readN = 0 ∧
    processNotif serverFd bufSize inp =
      ⟨[LoopAction.readCall inp.fd, LoopAction.closeFd inp.fd],
       [WorkItem.CloseCb (resolvedAddr inp.addrRes)]⟩ := by
  subst hb
  have h0 : inp.readN = 0 := le_antisymm (by simpa using hhi) hlo
  exact ⟨h0, by simp [processNotif, hhup, hfd, h0]⟩

/-- C10 witness: with buffer size 0 the concrete zero-read notification
on connection 5 is classified as close-plus-`OnClose`. -/
theorem zero_bufsize_read_classified_as_close_witness :
    processNotif 0 0 ⟨1, 5, -1, false, 0, [], .ok ⟨7, 8⟩⟩ =
      ⟨[LoopAction.readCall 5, LoopAction.closeFd 5], [WorkItem.CloseCb ⟨7, 8⟩]⟩ :=
  (zero_bufsize_read_classified_as_close 0 ⟨1, 5, -1, false, 0, [], .ok ⟨7, 8⟩⟩ 0
    rfl (by decide) (by decide) (by decide) (by decide)).2

end Tcp
